import Mathlib

set_option autoImplicit false

/-!
Shallow embedding of the sidekick `init` command (src/cmd/init.go).

The command collects a server address and certificate email (from flags or
stored configuration, else interactively), logs into the VPS as root, runs
the user-setup stage, re-logs-in as the sidekick user, runs the setup,
docker and traefik stages over that session, extracts the generated age
public key from captured command output, and finally persists the
configuration file.  We model the run as a pure function from an
environment (outcomes of the external calls plus the user-visible inputs)
to a result record holding the process exit status, the ordered trace of
observable events, the in-memory configuration values, and the sequence of
writes made to the on-disk configuration store.

Exit-status conventions of the Go runtime, reflected in the model:
os.Exit(0) gives status 0, log.Fatalf gives status 1, an unrecovered
Go runtime abort from panic(err) gives status 2, and a normal return from
the command gives status 0.
-/

/-- Splits a character list at every occurrence of the separator, keeping
empty pieces, exactly like the Go standard-library strings.Split with a
one-character separator.  The accumulator holds the current piece reversed. -/
def splitAux (sep : Char) : List Char → List Char → List (List Char)
  | [], acc => [acc.reverse]
  | c :: rest, acc =>
    if c = sep then acc.reverse :: splitAux sep rest []
    else splitAux sep rest (c :: acc)

/-- Model of the Go strings.Split applied with a single-character separator. -/
def goSplit (sep : Char) (s : String) : List String :=
  (splitAux sep s.toList []).map (fun cs => String.mk cs)

/-- Helper for goStartsWith: does the second list start with the first. -/
def startsAux : List Char → List Char → Bool
  | [], _ => true
  | _ :: _, [] => false
  | p :: ps, c :: cs => p == c && startsAux ps cs

/-- Model of the Go strings.HasPrefix test used on the key-generation output. -/
def goStartsWith (s pat : String) : Bool := startsAux pat.toList s.toList

/-- Validity of one dot-separated octet: non-empty, at most three decimal
digits, value at most 255. -/
def isValidOctet (cs : List Char) : Bool :=
  (!cs.isEmpty) && cs.length ≤ 3 && cs.all (fun c => c.isDigit)
    && (cs.foldl (fun n c => n * 10 + (c.toNat - 48)) 0) ≤ 255

/-- Modelled from the spec: utils.IsValidIPAddress (the utils package is not
among the provided sources).  The spec requires a syntactically valid IPv4
address for the host: it accepts 192.168.1.1 and rejects 999.1.1.1,
localhost and the empty string.  We model this as four dot-separated decimal
octets, each between 0 and 255. -/
def IsValidIPAddress (s : String) : Bool :=
  let parts := splitAux '.' s.toList []
  parts.length == 4 && parts.all isValidOctet

/-- The two ssh identities used by the init command. -/
inductive SessionId
  | root
  | sidekick
deriving DecidableEq

/-- The four stages run by the init command: utils.UsersetupStage on the
root session, then utils.SetupStage, utils.DockerStage and the traefik
stage (parameterized by the certificate email) on the sidekick session. -/
inductive StageName
  | usersetup
  | setup
  | docker
  | traefik
deriving DecidableEq

/-- Observable events of one run, in execution order: interactive prompts,
login attempts (utils.Login), stage executions (utils.RunStage), the single
captured command (utils.RunCommand with the age-keygen command line),
spinner success reports for stages, the viper.WriteConfig attempt and the
final readiness message. -/
inductive Event
  | promptServer
  | promptEmail
  | loginAttempt (s : SessionId)
  | stageRun (sess : SessionId) (st : StageName)
  | commandRun (sess : SessionId)
  | stageSuccess (st : StageName)
  | writeConfigAttempt
  | readyMessage
deriving DecidableEq

/-- The in-memory viper values for the three keys the command sets. -/
structure ConfigMem where
  serverAddress : Option String
  certEmail : Option String
  publicKey : Option String
deriving DecidableEq

def ConfigMem.empty : ConfigMem := ⟨none, none, none⟩

/-- Writes made to the on-disk configuration store: initConfig creates or
truncates the config file with os.Create (truncate), and viper.WriteConfig
writes the current in-memory values (write). -/
inductive DiskOp
  | truncate
  | write (c : ConfigMem)
deriving DecidableEq

/-- Outcome of one whole process run. -/
structure RunResult where
  exitCode : Nat
  events : List Event
  mem : ConfigMem
  diskOps : List DiskOp
deriving DecidableEq

/-- Environment of one run: outcomes of the external calls (directory and
file creation in initConfig, the two logins, the four stages, the captured
key-generation command and the config write) together with the values viper
returns for the two keys (flag or stored configuration) and the values the
user would type at the interactive prompts. -/
structure Env where
  mkdirOk : Bool
  createOk : Bool
  storedServer : String
  storedCertEmail : String
  inputServer : String
  inputCertEmail : String
  rootLoginOk : Bool
  usersetupOk : Bool
  sidekickLoginOk : Bool
  setupStageOk : Bool
  keygenSessionOk : Bool
  keygenOutput : String
  dockerOk : Bool
  traefikOk : Bool
  writeConfigOk : Bool
deriving DecidableEq

/-- Tail of the run from the point where the setup stage and the captured
key-generation command have finished: stage1Spinner.Success, the docker
stage, the traefik stage, viper.WriteConfig and the readiness message, each
failure aborting via panic (exit status 2). -/
def afterSetup (env : Env) (mem : ConfigMem) (evs : List Event) : RunResult :=
  let evs := evs ++ [Event.stageSuccess StageName.setup,
    Event.stageRun SessionId.sidekick StageName.docker]
  if env.dockerOk then
    let evs := evs ++ [Event.stageSuccess StageName.docker,
      Event.stageRun SessionId.sidekick StageName.traefik]
    if env.traefikOk then
      let evs := evs ++ [Event.stageSuccess StageName.traefik,
        Event.writeConfigAttempt]
      if env.writeConfigOk then
        ⟨0, evs ++ [Event.readyMessage], mem, [DiskOp.truncate, DiskOp.write mem]⟩
      else ⟨2, evs, mem, [DiskOp.truncate]⟩
    else ⟨2, evs, mem, [DiskOp.truncate]⟩
  else ⟨2, evs, mem, [DiskOp.truncate]⟩

/-- Body of initCmd once server and certEmail values are fixed: viper.Set
for both keys, root login (log.Fatalf on failure, exit status 1), the
user-setup stage, sidekick login, the setup stage, the captured age-keygen
command and the public-key extraction, then the tail afterSetup.  Stage and
login failures abort via panic (exit status 2); when the captured output
starts with the marker but splits into fewer than three space-separated
tokens, the Go slice expression [2:3] is out of range and the run aborts
the same way. -/
def afterInputs (env : Env) (server email : String) (evs : List Event) : RunResult :=
  let mem : ConfigMem := ⟨some server, some email, none⟩
  let evs := evs ++ [Event.loginAttempt SessionId.root]
  if env.rootLoginOk then
    let evs := evs ++ [Event.stageRun SessionId.root StageName.usersetup]
    if env.usersetupOk then
      let evs := evs ++ [Event.stageSuccess StageName.usersetup,
        Event.loginAttempt SessionId.sidekick]
      if env.sidekickLoginOk then
        let evs := evs ++ [Event.stageRun SessionId.sidekick StageName.setup]
        if env.setupStageOk then
          let evs := evs ++ [Event.commandRun SessionId.sidekick]
          if env.keygenSessionOk then
            if goStartsWith env.keygenOutput "Public key" then
              match (goSplit ' ' env.keygenOutput)[2]? with
              | some v => afterSetup env ⟨some server, some email, some v⟩ evs
              | none => ⟨2, evs, mem, [DiskOp.truncate]⟩
            else afterSetup env mem evs
          else ⟨2, evs, mem, [DiskOp.truncate]⟩
        else ⟨2, evs, mem, [DiskOp.truncate]⟩
      else ⟨2, evs, mem, [DiskOp.truncate]⟩
    else ⟨2, evs, mem, [DiskOp.truncate]⟩
  else ⟨1, evs, mem, [DiskOp.truncate]⟩

/-- Email-collection step of initCmd: when viper has no certEmail, prompt
for one and call os.Exit(0) when the answer is empty. -/
def afterServer (env : Env) (server : String) (evs : List Event) : RunResult :=
  if env.storedCertEmail = "" then
    let evs := evs ++ [Event.promptEmail]
    if env.inputCertEmail = "" then ⟨0, evs, ConfigMem.empty, [DiskOp.truncate]⟩
    else afterInputs env server env.inputCertEmail evs
  else afterInputs env server env.storedCertEmail evs

/-- The initCmd Run function: when viper has no serverAddress, prompt for
one and validate it with utils.IsValidIPAddress, calling os.Exit(0) when
validation fails; a value already present from a flag or the stored
configuration is used as is, without validation. -/
def runInitCmd (env : Env) : RunResult :=
  if env.storedServer = "" then
    let evs := [Event.promptServer]
    if IsValidIPAddress env.inputServer then
      afterServer env env.inputServer evs
    else ⟨0, evs, ConfigMem.empty, [DiskOp.truncate]⟩
  else afterServer env env.storedServer []

/-- The whole process: cobra runs initConfig first (directory creation and
os.Create of the config file, each failing with log.Fatalf and exit
status 1; a successful os.Create truncates the on-disk store), then the
initCmd Run function. -/
def runProcess (env : Env) : RunResult :=
  if env.mkdirOk then
    if env.createOk then runInitCmd env
    else ⟨1, [], ConfigMem.empty, []⟩
  else ⟨1, [], ConfigMem.empty, []⟩

/-- Does an event execute something over the bootstrap (root) session. -/
def usesRoot : Event → Bool
  | Event.stageRun SessionId.root _ => true
  | Event.commandRun SessionId.root => true
  | _ => false

/-- The part of a trace strictly after the first occurrence of the given
event (empty when the event never occurs). -/
def afterFirst (x : Event) : List Event → List Event
  | [] => []
  | a :: rest => if a = x then rest else afterFirst x rest

/-- Validity of the IPv4 check forces a non-empty string. -/
lemma valid_ip_ne_empty (s : String) (h : IsValidIPAddress s = true) : s ≠ "" := by
  intro he
  rw [he] at h
  exact absurd h (by decide)

/-!  Concrete environments used by the individual claims. -/

/-- Environment for C1: every external call succeeds but the captured
key-generation output lacks the marker. -/
def envMarkerMissing : Env :=
  ⟨true, true, "192.168.1.1", "ops@example.com", "", "",
   true, true, true, true, true, "age-keygen: unexpected output format",
   true, true, true⟩

/-- Environment for C2, first part: no stored server, the user types an
invalid IPv4 address at the prompt. -/
def envInvalidIPInput : Env :=
  ⟨true, true, "", "ops@example.com", "999.1.1.1", "",
   true, true, true, true, true, "Public key: AGE1ABCXYZ",
   true, true, true⟩

/-- Environment for C2, second part: no stored certificate email and the
user enters nothing at the prompt. -/
def envEmptyEmailInput : Env :=
  ⟨true, true, "192.168.1.1", "", "", "",
   true, true, true, true, true, "Public key: AGE1ABCXYZ",
   true, true, true⟩

/-!  Lemmas about afterFirst and root-session usage. -/

lemma afterFirst_of_notMem (x : Event) (l : List Event) (h : x ∉ l) :
    afterFirst x l = [] := by
  induction l with
  | nil => rfl
  | cons a t ih =>
    simp only [List.mem_cons, not_or] at h
    simp only [afterFirst]
    rw [if_neg (fun he => h.1 he.symm), ih h.2]

lemma afterFirst_append_of_notMem (x : Event) (l1 l2 : List Event) (h : x ∉ l1) :
    afterFirst x (l1 ++ l2) = afterFirst x l2 := by
  induction l1 with
  | nil => rfl
  | cons a t ih =>
    simp only [List.mem_cons, not_or] at h
    simp only [List.cons_append, afterFirst, List.append_eq]
    rw [if_neg (fun he => h.1 he.symm), ih h.2]

lemma afterFirst_append_of_mem (x : Event) (l1 l2 : List Event) (h : x ∈ l1) :
    afterFirst x (l1 ++ l2) = afterFirst x l1 ++ l2 := by
  induction l1 with
  | nil => cases h
  | cons a t ih =>
    simp only [List.cons_append, afterFirst, List.append_eq]
    by_cases ha : a = x
    · rw [if_pos ha, if_pos ha]
    · rw [if_neg ha, if_neg ha, ih ((List.mem_cons.mp h).resolve_left (fun hxa => ha hxa.symm))]

lemma all_afterFirst (x : Event) (l : List Event) (p : Event → Bool) (h : l.all p = true) :
    (afterFirst x l).all p = true := by
  induction l with
  | nil => rfl
  | cons a t ih =>
    simp only [List.all_cons, Bool.and_eq_true] at h
    simp only [afterFirst]
    by_cases ha : a = x
    · rw [if_pos ha]; exact List.all_eq_true.mpr (fun e he => List.all_eq_true.mp h.2 e he)
    · rw [if_neg ha]; exact ih h.2

/-- The part of a trace after the first sidekick login holds no event that
uses the root session. -/
def okTrace (l : List Event) : Bool :=
  (afterFirst (Event.loginAttempt SessionId.sidekick) l).all (fun e => !usesRoot e)

lemma okTrace_of_notMem (l : List Event)
    (h : Event.loginAttempt SessionId.sidekick ∉ l) : okTrace l = true := by
  unfold okTrace
  rw [afterFirst_of_notMem _ _ h]
  rfl

lemma okTrace_extend (l tl : List Event) (h1 : okTrace l = true)
    (h2 : tl.all (fun e => !usesRoot e) = true) : okTrace (l ++ tl) = true := by
  unfold okTrace at h1 ⊢
  by_cases hm : Event.loginAttempt SessionId.sidekick ∈ l
  · rw [afterFirst_append_of_mem _ _ _ hm, List.all_append, h1, h2]
    rfl
  · rw [afterFirst_append_of_notMem _ _ _ hm]
    exact all_afterFirst _ _ _ h2

/-!  Lemmas about the tail afterSetup. -/

lemma afterSetup_mem (env : Env) (mem : ConfigMem) (evs : List Event) :
    (afterSetup env mem evs).mem = mem := by
  unfold afterSetup
  dsimp only
  repeat' split
  all_goals rfl

lemma afterSetup_write (env : Env) (mem : ConfigMem) (evs : List Event) (c : ConfigMem)
    (hc : DiskOp.write c ∈ (afterSetup env mem evs).diskOps) : c = mem := by
  unfold afterSetup at hc
  dsimp only at hc
  repeat' split at hc
  all_goals simp_all

lemma afterSetup_setup_success (env : Env) (mem : ConfigMem) (evs : List Event) :
    Event.stageSuccess StageName.setup ∈ (afterSetup env mem evs).events := by
  unfold afterSetup
  dsimp only
  repeat' split
  all_goals simp

lemma afterSetup_no_traefik (env : Env) (mem : ConfigMem) (evs : List Event)
    (h : env.dockerOk = false)
    (hevs : Event.stageRun SessionId.sidekick StageName.traefik ∉ evs) :
    Event.stageRun SessionId.sidekick StageName.traefik ∉ (afterSetup env mem evs).events := by
  unfold afterSetup
  dsimp only
  repeat' split
  all_goals simp_all

lemma afterSetup_no_wca (env : Env) (mem : ConfigMem) (evs : List Event)
    (h : env.traefikOk = false)
    (hevs : Event.writeConfigAttempt ∉ evs) :
    Event.writeConfigAttempt ∉ (afterSetup env mem evs).events := by
  unfold afterSetup
  dsimp only
  repeat' split
  all_goals simp_all

lemma afterSetup_writeFail (env : Env) (mem : ConfigMem) (evs : List Event)
    (h : env.writeConfigOk = false)
    (hready : Event.readyMessage ∉ evs) :
    (afterSetup env mem evs).exitCode ≠ 0 ∧
    Event.readyMessage ∉ (afterSetup env mem evs).events ∧
    (∀ c, DiskOp.write c ∉ (afterSetup env mem evs).diskOps) := by
  unfold afterSetup
  dsimp only
  repeat' split
  all_goals simp_all

lemma afterSetup_happy (env : Env) (mem : ConfigMem) (evs : List Event)
    (h6 : env.dockerOk = true) (h7 : env.traefikOk = true) (h8 : env.writeConfigOk = true) :
    (afterSetup env mem evs).exitCode = 0 ∧
    Event.readyMessage ∈ (afterSetup env mem evs).events ∧
    (afterSetup env mem evs).mem = mem ∧
    (afterSetup env mem evs).diskOps = [DiskOp.truncate, DiskOp.write mem] := by
  unfold afterSetup
  dsimp only
  simp [h6, h7, h8]

lemma afterSetup_okTrace (env : Env) (mem : ConfigMem) (evs : List Event)
    (h : okTrace evs = true) : okTrace (afterSetup env mem evs).events = true := by
  unfold afterSetup
  dsimp only
  repeat' split
  all_goals repeat' apply okTrace_extend
  all_goals first
  | exact h
  | decide

lemma afterSetup_docker_fail (env : Env) (mem : ConfigMem) (evs : List Event)
    (h : env.dockerOk = false)
    (he1 : Event.stageRun SessionId.sidekick StageName.traefik ∉ evs)
    (he2 : Event.writeConfigAttempt ∉ evs) :
    Event.stageRun SessionId.sidekick StageName.traefik ∉ (afterSetup env mem evs).events ∧
    Event.writeConfigAttempt ∉ (afterSetup env mem evs).events := by
  unfold afterSetup
  dsimp only
  repeat' split
  all_goals simp_all

/-!  Lemmas about the body afterInputs. -/

lemma afterInputs_usersetup_fail (env : Env) (server email : String) (evs : List Event)
    (h : env.usersetupOk = false)
    (he1 : Event.loginAttempt SessionId.sidekick ∉ evs)
    (he2 : Event.stageRun SessionId.sidekick StageName.setup ∉ evs)
    (he3 : Event.stageRun SessionId.sidekick StageName.docker ∉ evs)
    (he4 : Event.stageRun SessionId.sidekick StageName.traefik ∉ evs)
    (he5 : Event.writeConfigAttempt ∉ evs) :
    Event.loginAttempt SessionId.sidekick ∉ (afterInputs env server email evs).events ∧
    Event.stageRun SessionId.sidekick StageName.setup ∉ (afterInputs env server email evs).events ∧
    Event.stageRun SessionId.sidekick StageName.docker ∉ (afterInputs env server email evs).events ∧
    Event.stageRun SessionId.sidekick StageName.traefik ∉ (afterInputs env server email evs).events ∧
    Event.writeConfigAttempt ∉ (afterInputs env server email evs).events := by
  unfold afterInputs
  dsimp only
  repeat' split
  all_goals simp_all

lemma afterInputs_sidekick_fail (env : Env) (server email : String) (evs : List Event)
    (h : env.sidekickLoginOk = false)
    (he2 : Event.stageRun SessionId.sidekick StageName.setup ∉ evs)
    (he3 : Event.stageRun SessionId.sidekick StageName.docker ∉ evs)
    (he4 : Event.stageRun SessionId.sidekick StageName.traefik ∉ evs)
    (he5 : Event.writeConfigAttempt ∉ evs) :
    Event.stageRun SessionId.sidekick StageName.setup ∉ (afterInputs env server email evs).events ∧
    Event.stageRun SessionId.sidekick StageName.docker ∉ (afterInputs env server email evs).events ∧
    Event.stageRun SessionId.sidekick StageName.traefik ∉ (afterInputs env server email evs).events ∧
    Event.writeConfigAttempt ∉ (afterInputs env server email evs).events ∧
    (afterInputs env server email evs).diskOps = [DiskOp.truncate] := by
  unfold afterInputs
  dsimp only
  repeat' split
  all_goals simp_all

lemma afterInputs_setup_fail (env : Env) (server email : String) (evs : List Event)
    (h : env.setupStageOk = false)
    (he3 : Event.stageRun SessionId.sidekick StageName.docker ∉ evs)
    (he4 : Event.stageRun SessionId.sidekick StageName.traefik ∉ evs)
    (he5 : Event.writeConfigAttempt ∉ evs) :
    Event.stageRun SessionId.sidekick StageName.docker ∉ (afterInputs env server email evs).events ∧
    Event.stageRun SessionId.sidekick StageName.traefik ∉ (afterInputs env server email evs).events ∧
    Event.writeConfigAttempt ∉ (afterInputs env server email evs).events := by
  unfold afterInputs
  dsimp only
  repeat' split
  all_goals simp_all

lemma afterInputs_docker_fail (env : Env) (server email : String) (evs : List Event)
    (h : env.dockerOk = false)
    (he4 : Event.stageRun SessionId.sidekick StageName.traefik ∉ evs)
    (he5 : Event.writeConfigAttempt ∉ evs) :
    Event.stageRun SessionId.sidekick StageName.traefik ∉ (afterInputs env server email evs).events ∧
    Event.writeConfigAttempt ∉ (afterInputs env server email evs).events := by
  unfold afterInputs
  dsimp only
  repeat' split
  all_goals first
  | exact afterSetup_docker_fail _ _ _ h (by simp_all) (by simp_all)
  | simp_all

lemma afterInputs_traefik_fail (env : Env) (server email : String) (evs : List Event)
    (h : env.traefikOk = false)
    (he5 : Event.writeConfigAttempt ∉ evs) :
    Event.writeConfigAttempt ∉ (afterInputs env server email evs).events := by
  unfold afterInputs
  dsimp only
  repeat' split
  all_goals first
  | exact afterSetup_no_wca _ _ _ h (by simp_all)
  | simp_all

lemma afterInputs_publicKey_none (env : Env) (server email : String) (evs : List Event)
    (h : goStartsWith env.keygenOutput "Public key" = false) :
    (afterInputs env server email evs).mem.publicKey = none := by
  unfold afterInputs
  dsimp only
  repeat' split
  all_goals first
  | rfl
  | (simp_all; done)
  | (rw [afterSetup_mem])

lemma afterInputs_write_publicKey_none (env : Env) (server email : String) (evs : List Event)
    (h : goStartsWith env.keygenOutput "Public key" = false) :
    ∀ c, DiskOp.write c ∈ (afterInputs env server email evs).diskOps → c.publicKey = none := by
  unfold afterInputs
  dsimp only
  repeat' split
  all_goals intro c hc
  all_goals first
  | (simp_all; done)
  | (rw [afterSetup_write _ _ _ _ hc])

lemma afterInputs_cmd_success (env : Env) (server email : String) (evs : List Event)
    (h : goStartsWith env.keygenOutput "Public key" = false)
    (hk : env.keygenSessionOk = true)
    (hcr : Event.commandRun SessionId.sidekick ∉ evs) :
    Event.commandRun SessionId.sidekick ∈ (afterInputs env server email evs).events →
    Event.stageSuccess StageName.setup ∈ (afterInputs env server email evs).events := by
  unfold afterInputs
  dsimp only
  repeat' split
  all_goals first
  | (intro hm; exact afterSetup_setup_success _ _ _)
  | (intro hm; simp_all; done)
  | simp_all

lemma afterInputs_okTrace (env : Env) (server email : String) (evs : List Event)
    (hsk : Event.loginAttempt SessionId.sidekick ∉ evs) :
    okTrace (afterInputs env server email evs).events = true := by
  have hbase : okTrace (((evs ++ [Event.loginAttempt SessionId.root]) ++
      [Event.stageRun SessionId.root StageName.usersetup]) ++
      [Event.stageSuccess StageName.usersetup, Event.loginAttempt SessionId.sidekick]) = true := by
    unfold okTrace
    rw [afterFirst_append_of_notMem]
    · decide
    · simp [hsk]
  have h4 : okTrace ((((evs ++ [Event.loginAttempt SessionId.root]) ++
      [Event.stageRun SessionId.root StageName.usersetup]) ++
      [Event.stageSuccess StageName.usersetup, Event.loginAttempt SessionId.sidekick]) ++
      [Event.stageRun SessionId.sidekick StageName.setup]) = true :=
    okTrace_extend _ _ hbase (by decide)
  have h5 : okTrace (((((evs ++ [Event.loginAttempt SessionId.root]) ++
      [Event.stageRun SessionId.root StageName.usersetup]) ++
      [Event.stageSuccess StageName.usersetup, Event.loginAttempt SessionId.sidekick]) ++
      [Event.stageRun SessionId.sidekick StageName.setup]) ++
      [Event.commandRun SessionId.sidekick]) = true :=
    okTrace_extend _ _ h4 (by decide)
  unfold afterInputs
  dsimp only
  repeat' split
  all_goals first
  | exact hbase
  | exact h4
  | exact h5
  | exact afterSetup_okTrace _ _ _ h5
  | (refine okTrace_of_notMem _ ?_; simp [hsk]; done)

lemma afterInputs_writeFail (env : Env) (server email : String) (evs : List Event)
    (h : env.writeConfigOk = false)
    (hready : Event.readyMessage ∉ evs) :
    (afterInputs env server email evs).exitCode ≠ 0 ∧
    Event.readyMessage ∉ (afterInputs env server email evs).events ∧
    (∀ c, DiskOp.write c ∉ (afterInputs env server email evs).diskOps) := by
  unfold afterInputs
  dsimp only
  repeat' split
  all_goals first
  | exact afterSetup_writeFail _ _ _ h (by simp_all)
  | simp_all

lemma afterInputs_happy (env : Env) (server email : String) (evs : List Event) (v : String)
    (h1 : env.rootLoginOk = true) (h2 : env.usersetupOk = true)
    (h3 : env.sidekickLoginOk = true) (h4 : env.setupStageOk = true)
    (h5 : env.keygenSessionOk = true)
    (hmark : goStartsWith env.keygenOutput "Public key" = true)
    (hv : (goSplit ' ' env.keygenOutput)[2]? = some v)
    (h6 : env.dockerOk = true) (h7 : env.traefikOk = true) (h8 : env.writeConfigOk = true) :
    (afterInputs env server email evs).exitCode = 0 ∧
    Event.readyMessage ∈ (afterInputs env server email evs).events ∧
    (afterInputs env server email evs).mem = ⟨some server, some email, some v⟩ ∧
    (afterInputs env server email evs).diskOps =
      [DiskOp.truncate, DiskOp.write ⟨some server, some email, some v⟩] := by
  unfold afterInputs
  dsimp only
  simp only [h1, h2, h3, h4, h5, hmark, hv, eq_self_iff_true, if_true]
  exact afterSetup_happy _ _ _ h6 h7 h8

/-!  Gate lemmas lifted to the whole process. -/

lemma bool_resolve (b : Bool) (h : b = false → False) : b = true := by
  cases b
  · exact absurd rfl h
  · rfl

lemma runProcess_usersetup_fail (env : Env) (h : env.usersetupOk = false) :
    Event.loginAttempt SessionId.sidekick ∉ (runProcess env).events ∧
    Event.stageRun SessionId.sidekick StageName.setup ∉ (runProcess env).events ∧
    Event.stageRun SessionId.sidekick StageName.docker ∉ (runProcess env).events ∧
    Event.stageRun SessionId.sidekick StageName.traefik ∉ (runProcess env).events ∧
    Event.writeConfigAttempt ∉ (runProcess env).events := by
  unfold runProcess runInitCmd afterServer
  dsimp only
  repeat' split
  all_goals first
  | exact afterInputs_usersetup_fail _ _ _ _ h
      (by decide) (by decide) (by decide) (by decide) (by decide)
  | (refine ⟨?_, ?_, ?_, ?_, ?_⟩ <;> decide)

lemma runProcess_sidekick_fail (env : Env) (h : env.sidekickLoginOk = false) :
    Event.stageRun SessionId.sidekick StageName.setup ∉ (runProcess env).events ∧
    Event.stageRun SessionId.sidekick StageName.docker ∉ (runProcess env).events ∧
    Event.stageRun SessionId.sidekick StageName.traefik ∉ (runProcess env).events ∧
    Event.writeConfigAttempt ∉ (runProcess env).events ∧
    (env.mkdirOk = true → env.createOk = true →
      (runProcess env).diskOps = [DiskOp.truncate]) := by
  unfold runProcess runInitCmd afterServer
  dsimp only
  repeat' split
  all_goals refine ⟨?_, ?_, ?_, ?_, fun hmk hcr => ?_⟩
  all_goals first
  | exact (afterInputs_sidekick_fail _ _ _ _ h
      (by decide) (by decide) (by decide) (by decide)).1
  | exact (afterInputs_sidekick_fail _ _ _ _ h
      (by decide) (by decide) (by decide) (by decide)).2.1
  | exact (afterInputs_sidekick_fail _ _ _ _ h
      (by decide) (by decide) (by decide) (by decide)).2.2.1
  | exact (afterInputs_sidekick_fail _ _ _ _ h
      (by decide) (by decide) (by decide) (by decide)).2.2.2.1
  | exact (afterInputs_sidekick_fail _ _ _ _ h
      (by decide) (by decide) (by decide) (by decide)).2.2.2.2
  | decide
  | simp_all

lemma runProcess_setup_fail (env : Env) (h : env.setupStageOk = false) :
    Event.stageRun SessionId.sidekick StageName.docker ∉ (runProcess env).events ∧
    Event.stageRun SessionId.sidekick StageName.traefik ∉ (runProcess env).events ∧
    Event.writeConfigAttempt ∉ (runProcess env).events := by
  unfold runProcess runInitCmd afterServer
  dsimp only
  repeat' split
  all_goals first
  | exact afterInputs_setup_fail _ _ _ _ h (by decide) (by decide) (by decide)
  | (refine ⟨?_, ?_, ?_⟩ <;> decide)

lemma runProcess_docker_fail (env : Env) (h : env.dockerOk = false) :
    Event.stageRun SessionId.sidekick StageName.traefik ∉ (runProcess env).events ∧
    Event.writeConfigAttempt ∉ (runProcess env).events := by
  unfold runProcess runInitCmd afterServer
  dsimp only
  repeat' split
  all_goals first
  | exact afterInputs_docker_fail _ _ _ _ h (by decide) (by decide)
  | (refine ⟨?_, ?_⟩ <;> decide)

lemma runProcess_traefik_fail (env : Env) (h : env.traefikOk = false) :
    Event.writeConfigAttempt ∉ (runProcess env).events := by
  unfold runProcess runInitCmd afterServer
  dsimp only
  repeat' split
  all_goals first
  | exact afterInputs_traefik_fail _ _ _ _ h (by decide)
  | decide

/-!  Remaining concrete environments for the claims. -/

/-- Environment for C3: an invalid address pre-supplied by flag or stored
configuration, every external call succeeding. -/
def envPresuppliedInvalid : Env :=
  ⟨true, true, "999.1.1.1", "ops@example.com", "", "",
   true, true, true, true, true, "Public key: AGE1ABCXYZ",
   true, true, true⟩

/-- Environment for the C3 witness: no stored address, the user types
localhost at the prompt. -/
def envInteractiveInvalid : Env :=
  ⟨true, true, "", "ops@example.com", "localhost", "",
   true, true, true, true, true, "Public key: AGE1ABCXYZ",
   true, true, true⟩

/-- Environment for C4: account creation succeeds and the operational
(sidekick) login fails. -/
def envOpLoginFail : Env :=
  ⟨true, true, "192.168.1.1", "ops@example.com", "", "",
   true, true, false, true, true, "Public key: AGE1ABCXYZ",
   true, true, true⟩

/-- Environment for the C5 witness: everything succeeds. -/
def envAllOk : Env :=
  ⟨true, true, "192.168.1.1", "ops@example.com", "", "",
   true, true, true, true, true, "Public key: AGE1ABCXYZ more text",
   true, true, true⟩

/-- Environment for C6: everything succeeds and the captured output is the
one from the spec example. -/
def envExtract : Env :=
  ⟨true, true, "192.168.1.1", "ops@example.com", "", "",
   true, true, true, true, true, "Public key: AGE1ABCXYZ more text",
   true, true, true⟩

/-- Environment for C7: everything succeeds but the captured output is the
marker followed by one space and nothing else, so the third space-separated
token exists and is empty. -/
def envMarkerEmptyToken : Env :=
  ⟨true, true, "192.168.1.1", "ops@example.com", "", "",
   true, true, true, true, true, "Public key: ",
   true, true, true⟩

/-- Environment for the C7 witness: everything succeeds with a well-formed
key-generation output. -/
def envHappyWitness : Env :=
  ⟨true, true, "192.168.1.1", "ops@example.com", "", "",
   true, true, true, true, true, "Public key: AGE1ABCXYZ more text",
   true, true, true⟩

/-- Environment for the C8 witness: every remote step succeeds and only the
final configuration write fails. -/
def envPersistFail : Env :=
  ⟨true, true, "192.168.1.1", "ops@example.com", "", "",
   true, true, true, true, true, "Public key: AGE1ABCXYZ more text",
   true, true, false⟩

/-- Environment for C10: everything succeeds and the captured output is
exactly the marker, with fewer than three space-separated tokens. -/
def envShortMarker : Env :=
  ⟨true, true, "192.168.1.1", "ops@example.com", "", "",
   true, true, true, true, true, "Public key",
   true, true, true⟩

/-!  The claims. -/

/-- C1, counterexample: with every external call succeeding and a captured
key-generation output that lacks the marker, the run does not fail: it
exits with status zero, reports the setup stage successful, and persists a
configuration whose publicKey value is missing.  This refutes the claim
that a missing marker is a fatal extraction error. -/
theorem missing_marker_not_fatal_cex :
    goStartsWith envMarkerMissing.keygenOutput "Public key" = false ∧
    (runProcess envMarkerMissing).exitCode = 0 ∧
    Event.stageSuccess StageName.setup ∈ (runProcess envMarkerMissing).events ∧
    DiskOp.write ⟨some "192.168.1.1", some "ops@example.com", none⟩ ∈
      (runProcess envMarkerMissing).diskOps := by
  decide

/-- C1, amended: for every captured key-generation output that lacks the
marker, the run silently continues: no publicKey value is ever set, every
configuration persisted by such a run lacks the publicKey value, and if
the captured command ran then the setup stage is still reported
successful. -/
theorem missing_marker_run_continues (env : Env)
    (h : goStartsWith env.keygenOutput "Public key" = false) :
    (runProcess env).mem.publicKey = none ∧
    (∀ c, DiskOp.write c ∈ (runProcess env).diskOps → c.publicKey = none) ∧
    (env.keygenSessionOk = true →
      Event.commandRun SessionId.sidekick ∈ (runProcess env).events →
      Event.stageSuccess StageName.setup ∈ (runProcess env).events) := by
  unfold runProcess runInitCmd afterServer
  dsimp only
  repeat' split
  all_goals first
  | exact ⟨afterInputs_publicKey_none _ _ _ _ h,
      afterInputs_write_publicKey_none _ _ _ _ h,
      fun hk => afterInputs_cmd_success _ _ _ _ h hk (by decide)⟩
  | (refine ⟨rfl, ?_, ?_⟩ <;> intros <;> simp_all)

/-- C1, witness for the amended theorem at a concrete input. -/
theorem missing_marker_run_continues_witness :
    goStartsWith envMarkerMissing.keygenOutput "Public key" = false ∧
    (runProcess envMarkerMissing).mem.publicKey = none :=
  ⟨by decide, (missing_marker_run_continues envMarkerMissing (by decide)).1⟩

/-- C2: at the failing inputs the claim is contradicted by the code: an
invalid interactive address and an empty interactive certificate email both
make the run terminate with exit status zero (os.Exit with argument 0),
not a non-zero status. -/
theorem invalid_input_exits_with_status_zero :
    IsValidIPAddress envInvalidIPInput.inputServer = false ∧
    (runProcess envInvalidIPInput).exitCode = 0 ∧
    envEmptyEmailInput.storedCertEmail = "" ∧
    envEmptyEmailInput.inputCertEmail = "" ∧
    (runProcess envEmptyEmailInput).exitCode = 0 := by
  decide

/-- C3, counterexample: an invalid address pre-supplied via flag or stored
configuration is never validated: the run proceeds to the remote
operations (root login, user-setup stage) and completes with exit status
zero.  This refutes the claim that validation happens regardless of where
the address came from. -/
theorem presupplied_address_not_validated_cex :
    IsValidIPAddress envPresuppliedInvalid.storedServer = false ∧
    Event.loginAttempt SessionId.root ∈ (runProcess envPresuppliedInvalid).events ∧
    Event.stageRun SessionId.root StageName.usersetup ∈
      (runProcess envPresuppliedInvalid).events ∧
    (runProcess envPresuppliedInvalid).exitCode = 0 := by
  decide

/-- C3, amended: only an interactively entered address is validated; when
that validation fails the run stops at the prompt, before any remote
operation, with nothing set in memory and only the initConfig truncation
on disk (and, per C2, exit status zero). -/
theorem interactive_invalid_address_aborts (env : Env)
    (hmk : env.mkdirOk = true) (hcr : env.createOk = true)
    (hs : env.storedServer = "")
    (hv : IsValidIPAddress env.inputServer = false) :
    (runProcess env).events = [Event.promptServer] ∧
    (runProcess env).exitCode = 0 ∧
    (runProcess env).mem = ConfigMem.empty ∧
    (runProcess env).diskOps = [DiskOp.truncate] ∧
    (∀ s : SessionId, Event.loginAttempt s ∉ (runProcess env).events) := by
  unfold runProcess runInitCmd
  simp [hmk, hcr, hs, hv]

/-- C3, witness for the amended theorem at a concrete input. -/
theorem interactive_invalid_address_aborts_witness :
    IsValidIPAddress envInteractiveInvalid.inputServer = false ∧
    (runProcess envInteractiveInvalid).events = [Event.promptServer] :=
  ⟨by decide,
   (interactive_invalid_address_aborts envInteractiveInvalid rfl rfl rfl (by decide)).1⟩

/-- C4, counterexample: when the operational login fails after successful
account creation, no later stage runs and nothing is written by
viper.WriteConfig, but the on-disk store is not left untouched: initConfig
has already created (truncated) the configuration file. -/
theorem operational_login_failure_store_touched_cex :
    envOpLoginFail.sidekickLoginOk = false ∧
    Event.stageSuccess StageName.usersetup ∈ (runProcess envOpLoginFail).events ∧
    (runProcess envOpLoginFail).diskOps = [DiskOp.truncate] ∧
    (runProcess envOpLoginFail).diskOps ≠ [] := by
  decide

/-- C4, amended: if the operational login fails, no stage after account
creation is ever invoked, viper.WriteConfig is never attempted and no
configuration values are written, but the configuration file has still
been created (truncated) by initConfig. -/
theorem operational_login_failure_halts_run (env : Env)
    (hmk : env.mkdirOk = true) (hcr : env.createOk = true)
    (h : env.sidekickLoginOk = false) :
    Event.stageRun SessionId.sidekick StageName.setup ∉ (runProcess env).events ∧
    Event.stageRun SessionId.sidekick StageName.docker ∉ (runProcess env).events ∧
    Event.stageRun SessionId.sidekick StageName.traefik ∉ (runProcess env).events ∧
    Event.writeConfigAttempt ∉ (runProcess env).events ∧
    (runProcess env).diskOps = [DiskOp.truncate] := by
  have hA := runProcess_sidekick_fail env h
  exact ⟨hA.1, hA.2.1, hA.2.2.1, hA.2.2.2.1, hA.2.2.2.2 hmk hcr⟩

/-- C4, witness for the amended theorem at a concrete input. -/
theorem operational_login_failure_halts_run_witness :
    envOpLoginFail.sidekickLoginOk = false ∧
    Event.stageRun SessionId.sidekick StageName.setup ∉ (runProcess envOpLoginFail).events :=
  ⟨by decide,
   (operational_login_failure_halts_run envOpLoginFail rfl rfl (by decide)).1⟩

/-- C5: phases execute in strict order and the run halts at the first
failure: the operational login is reached only when the account-creation
(user-setup) stage succeeded, each configuration stage is reached only
when every earlier phase succeeded, and the persistence attempt is reached
only when all stages succeeded. -/
theorem stage_order_invariant (env : Env) :
    (Event.loginAttempt SessionId.sidekick ∈ (runProcess env).events →
      env.usersetupOk = true) ∧
    (Event.stageRun SessionId.sidekick StageName.setup ∈ (runProcess env).events →
      env.usersetupOk = true ∧ env.sidekickLoginOk = true) ∧
    (Event.stageRun SessionId.sidekick StageName.docker ∈ (runProcess env).events →
      env.usersetupOk = true ∧ env.sidekickLoginOk = true ∧ env.setupStageOk = true) ∧
    (Event.stageRun SessionId.sidekick StageName.traefik ∈ (runProcess env).events →
      env.usersetupOk = true ∧ env.sidekickLoginOk = true ∧ env.setupStageOk = true ∧
      env.dockerOk = true) ∧
    (Event.writeConfigAttempt ∈ (runProcess env).events →
      env.usersetupOk = true ∧ env.sidekickLoginOk = true ∧ env.setupStageOk = true ∧
      env.dockerOk = true ∧ env.traefikOk = true) :=
  ⟨fun hm => bool_resolve _ (fun hf => (runProcess_usersetup_fail env hf).1 hm),
   fun hm => ⟨bool_resolve _ (fun hf => (runProcess_usersetup_fail env hf).2.1 hm),
     bool_resolve _ (fun hf => (runProcess_sidekick_fail env hf).1 hm)⟩,
   fun hm => ⟨bool_resolve _ (fun hf => (runProcess_usersetup_fail env hf).2.2.1 hm),
     bool_resolve _ (fun hf => (runProcess_sidekick_fail env hf).2.1 hm),
     bool_resolve _ (fun hf => (runProcess_setup_fail env hf).1 hm)⟩,
   fun hm => ⟨bool_resolve _ (fun hf => (runProcess_usersetup_fail env hf).2.2.2.1 hm),
     bool_resolve _ (fun hf => (runProcess_sidekick_fail env hf).2.2.1 hm),
     bool_resolve _ (fun hf => (runProcess_setup_fail env hf).2.1 hm),
     bool_resolve _ (fun hf => (runProcess_docker_fail env hf).1 hm)⟩,
   fun hm => ⟨bool_resolve _ (fun hf => (runProcess_usersetup_fail env hf).2.2.2.2 hm),
     bool_resolve _ (fun hf => (runProcess_sidekick_fail env hf).2.2.2.1 hm),
     bool_resolve _ (fun hf => (runProcess_setup_fail env hf).2.2 hm),
     bool_resolve _ (fun hf => (runProcess_docker_fail env hf).2 hm),
     bool_resolve _ (fun hf => runProcess_traefik_fail env hf hm)⟩⟩

/-- C5, witness: at an all-success environment the persistence attempt is
in the trace, and the theorem then forces every stage flag to be true. -/
theorem stage_order_invariant_witness :
    envAllOk.usersetupOk = true ∧ envAllOk.traefikOk = true :=
  ⟨((stage_order_invariant envAllOk).2.2.2.2 (by decide)).1,
   ((stage_order_invariant envAllOk).2.2.2.2 (by decide)).2.2.2.2⟩

/-- C6: on the spec example output the extracted fact stored under the
publicKey key equals AGE1ABCXYZ, both in memory and in the persisted
configuration. -/
theorem extraction_example_value :
    (runProcess envExtract).mem.publicKey = some "AGE1ABCXYZ" ∧
    DiskOp.write ⟨some "192.168.1.1", some "ops@example.com", some "AGE1ABCXYZ"⟩ ∈
      (runProcess envExtract).diskOps := by
  decide

/-- C7, counterexample: with every step succeeding and a captured output
that contains the marker but whose third space-separated token is empty
(the string consisting of the marker, a colon and one trailing space), the
run exits with status zero yet persists an empty publicKey value, so the
store does not hold three non-empty values as claimed. -/
theorem marker_with_empty_token_cex :
    goStartsWith envMarkerEmptyToken.keygenOutput "Public key" = true ∧
    (runProcess envMarkerEmptyToken).exitCode = 0 ∧
    (runProcess envMarkerEmptyToken).mem.publicKey = some "" ∧
    DiskOp.write ⟨some "192.168.1.1", some "ops@example.com", some ""⟩ ∈
      (runProcess envMarkerEmptyToken).diskOps := by
  decide

/-- C7, amended: if every step succeeds and the captured output starts
with the marker and has a non-empty third space-separated token, the run
exits with status zero and the persisted configuration holds non-empty
serverAddress, certEmail and publicKey values. -/
theorem happy_path_completes (env : Env)
    (hmk : env.mkdirOk = true) (hcr : env.createOk = true)
    (hs : env.storedServer ≠ "" ∨ IsValidIPAddress env.inputServer = true)
    (he : env.storedCertEmail ≠ "" ∨ env.inputCertEmail ≠ "")
    (h1 : env.rootLoginOk = true) (h2 : env.usersetupOk = true)
    (h3 : env.sidekickLoginOk = true) (h4 : env.setupStageOk = true)
    (h5 : env.keygenSessionOk = true) (h6 : env.dockerOk = true)
    (h7 : env.traefikOk = true) (h8 : env.writeConfigOk = true)
    (hmark : goStartsWith env.keygenOutput "Public key" = true)
    (hk : ∃ v, (goSplit ' ' env.keygenOutput)[2]? = some v ∧ v ≠ "") :
    (runProcess env).exitCode = 0 ∧
    Event.readyMessage ∈ (runProcess env).events ∧
    ∃ s e k, (runProcess env).mem = ⟨some s, some e, some k⟩ ∧
      s ≠ "" ∧ e ≠ "" ∧ k ≠ "" ∧
      DiskOp.write ⟨some s, some e, some k⟩ ∈ (runProcess env).diskOps := by
  obtain ⟨v, hv, hvne⟩ := hk
  unfold runProcess runInitCmd afterServer
  dsimp only
  repeat' split
  all_goals first
  | (have hA := afterInputs_happy env
        env.storedServer env.storedCertEmail [] v
        h1 h2 h3 h4 h5 hmark hv h6 h7 h8
     exact ⟨hA.1, hA.2.1, env.storedServer, env.storedCertEmail, v, hA.2.2.1,
       by assumption, by assumption, hvne, by rw [hA.2.2.2]; simp⟩)
  | (have hA := afterInputs_happy env
        env.storedServer env.inputCertEmail ([] ++ [Event.promptEmail]) v
        h1 h2 h3 h4 h5 hmark hv h6 h7 h8
     exact ⟨hA.1, hA.2.1, env.storedServer, env.inputCertEmail, v, hA.2.2.1,
       by assumption, by assumption, hvne, by rw [hA.2.2.2]; simp⟩)
  | (have hA := afterInputs_happy env
        env.inputServer env.storedCertEmail [Event.promptServer] v
        h1 h2 h3 h4 h5 hmark hv h6 h7 h8
     exact ⟨hA.1, hA.2.1, env.inputServer, env.storedCertEmail, v, hA.2.2.1,
       valid_ip_ne_empty _ (by assumption), by assumption, hvne, by rw [hA.2.2.2]; simp⟩)
  | (have hA := afterInputs_happy env
        env.inputServer env.inputCertEmail ([Event.promptServer] ++ [Event.promptEmail]) v
        h1 h2 h3 h4 h5 hmark hv h6 h7 h8
     exact ⟨hA.1, hA.2.1, env.inputServer, env.inputCertEmail, v, hA.2.2.1,
       valid_ip_ne_empty _ (by assumption), by assumption, hvne, by rw [hA.2.2.2]; simp⟩)
  | (simp_all; done)

/-- C7, witness for the amended theorem at a concrete input. -/
theorem happy_path_completes_witness :
    (runProcess envHappyWitness).exitCode = 0 ∧
    Event.readyMessage ∈ (runProcess envHappyWitness).events := by
  have hA := happy_path_completes envHappyWitness rfl rfl
    (Or.inl (by decide)) (Or.inl (by decide)) rfl rfl rfl rfl rfl rfl rfl rfl
    (by decide) ⟨"AGE1ABCXYZ", by decide, by decide⟩
  exact ⟨hA.1, hA.2.1⟩

/-- C8: if the run reaches the persistence attempt and the configuration
write fails, the run is fatal: the exit status is non-zero, the readiness
message is never printed, and nothing is ever written to the store. -/
theorem persistence_failure_fatal (env : Env)
    (hatt : Event.writeConfigAttempt ∈ (runProcess env).events)
    (h : env.writeConfigOk = false) :
    (runProcess env).exitCode ≠ 0 ∧
    Event.readyMessage ∉ (runProcess env).events ∧
    ∀ c, DiskOp.write c ∉ (runProcess env).diskOps := by
  revert hatt
  unfold runProcess runInitCmd afterServer
  dsimp only
  repeat' split
  all_goals intro hatt
  all_goals first
  | exact afterInputs_writeFail _ _ _ _ h (by decide)
  | simp_all

/-- C8, witness at a concrete input where every stage succeeds and only
the configuration write fails. -/
theorem persistence_failure_fatal_witness :
    Event.writeConfigAttempt ∈ (runProcess envPersistFail).events ∧
    (runProcess envPersistFail).exitCode ≠ 0 :=
  ⟨by decide, (persistence_failure_fatal envPersistFail (by decide) (by decide)).1⟩

/-- C9: once the operational (sidekick) session is established, the
bootstrap (root) session is never used again: every event after the first
sidekick login attempt in the trace is an event that does not run a stage
or a command over the root session. -/
theorem root_session_not_reused (env : Env) :
    ((afterFirst (Event.loginAttempt SessionId.sidekick) (runProcess env).events).all
      (fun e => !usesRoot e)) = true := by
  show okTrace (runProcess env).events = true
  unfold runProcess runInitCmd afterServer
  dsimp only
  repeat' split
  all_goals first
  | exact afterInputs_okTrace _ _ _ _ (by decide)
  | decide

/-- C10: the extraction step is not total: the output consisting of
exactly the marker starts with the marker yet splits into fewer than three
space-separated tokens, so the index-2 access of the Go slice expression
is out of range and the run aborts (modelled as the panic exit status 2)
instead of returning normally. -/
theorem extraction_out_of_range_on_short_output :
    goStartsWith envShortMarker.keygenOutput "Public key" = true ∧
    (goSplit ' ' envShortMarker.keygenOutput).length < 3 ∧
    (goSplit ' ' envShortMarker.keygenOutput)[2]? = none ∧
    (runProcess envShortMarker).exitCode = 2 := by
  decide
